import Mathlib

/-!
Shallow embedding of blink's zipfs VFS adapter (src/blink/zipfs.c, zipfs.h).

Host paths are modelled as lists of characters, host syscalls as an oracle
structure `Host`, and each adapter entry point as a Lean function that returns
its result together with the list of host calls it issued.  The C code's
NULL-pointer guards (`efault`) for the argument pointers are elided: the
embedding passes the pointed-to values directly, so those guards are
unreachable by construction.  Allocation failures inside the lookup/open
paths are likewise elided except in the dedicated heap-tracking model of
`ZipfsInit`, which is the only place the claims talk about allocation.
-/

deriving instance DecidableEq for Except

namespace Zipfs

/-- 2^64, the modulus of the C `u64` arithmetic in `ZipfsHash`. -/
def U64 : Nat := 2 ^ 64

/-- POSIX file-type mask (0170000). -/
def S_IFMT : Nat := 0o170000

/-- POSIX directory file type (0040000). -/
def S_IFDIR : Nat := 0o040000

/-- POSIX regular-file type (0100000). -/
def S_IFREG : Nat := 0o100000

/-- `S_ISDIR(m)` from sys/stat.h: the type bits of `m` equal `S_IFDIR`. -/
def S_ISDIR (m : Nat) : Bool := m &&& S_IFMT == S_IFDIR

/-- `S_ISREG(m)` from sys/stat.h: the type bits of `m` equal `S_IFREG`. -/
def S_ISREG (m : Nat) : Bool := m &&& S_IFMT == S_IFREG

/-- fcntl.h open-flag constants (Linux values). -/
def O_RDONLY : Nat := 0

def O_ACCMODE : Nat := 3

def O_CREAT : Nat := 0o100

def O_TRUNC : Nat := 0o1000

def O_APPEND : Nat := 0o2000

/-- unistd.h `W_OK` access bit. -/
def W_OK : Nat := 2

/-- fcntl.h `AT_SYMLINK_NOFOLLOW`. -/
def AT_SYMLINK_NOFOLLOW : Nat := 0x100

/-- Error kinds produced by blink's errno helpers (`eacces()` etc. set errno
and return -1) plus verbatim pass-through of a host errno value. -/
inductive Err where
  | EFAULT
  | EACCES
  | EBADF
  | ENOTDIR
  | ENOMEM
  | EINVAL
  | hostErr (e : Nat)
  deriving DecidableEq, Repr

/-- A host path, the C `char *` strings zipfs builds with `ZipfsBuildHostPath`. -/
abbrev Path := List Char

/-- The fields of `struct stat` that zipfs reads or rewrites. -/
structure HostStat where
  st_dev : Nat
  st_ino : Nat
  st_mode : Nat
  deriving DecidableEq, Repr

/-- A host `struct dirent`, reduced to the name zipfs forwards. -/
structure Dirent where
  d_name : Path
  deriving DecidableEq, Repr

/-- One host syscall issued by the adapter; the traces of these record
exactly which host primitives an entry point invoked, in order. -/
inductive HostCall where
  | statC (p : Path)
  | lstatC (p : Path)
  | openC (p : Path)
  | fstatC (fd : Int)
  | closeC (fd : Int)
  | readC (fd : Int) (size : Nat)
  | readvC (fd : Int) (iovcnt : Nat)
  | preadC (fd : Int) (size : Nat) (off : Int)
  | lseekC (fd : Int) (off : Int) (whence : Nat)
  | accessC (p : Path) (m : Nat)
  | opendirC (p : Path)
  | readdirC (s : Nat)
  | rewinddirC (s : Nat)
  | seekdirC (s : Nat) (loc : Int)
  | telldirC (s : Nat)
  | closedirC (s : Nat)
  deriving DecidableEq, Repr

/-- The host filesystem oracle: one field per host primitive zipfs calls.
`Except Nat` failure carries the host errno, passed through verbatim. -/
structure Host where
  statH : Path → Except Nat HostStat
  lstatH : Path → Except Nat HostStat
  openH : Path → Except Nat Int
  fstatH : Int → Except Nat HostStat
  accessH : Path → Nat → Except Nat Unit
  closeH : Int → Except Nat Unit
  readH : Int → Nat → Except Nat (List Nat)
  readvH : Int → Nat → Except Nat Int
  preadH : Int → Nat → Int → Except Nat (List Nat)
  lseekH : Int → Int → Nat → Except Nat Int
  opendirH : Path → Except Nat Nat
  readdirH : Nat → Option Dirent
  telldirH : Nat → Int
  closedirH : Nat → Except Nat Unit

/-- `struct ZipfsInfo` (zipfs.h): per-node private payload.  `filefd` keeps
the C sentinel -1 for "not open"; `dirstream` and `hostpath` are the NULLable
pointers, modelled with `Option`. -/
structure ZipfsInfo where
  mode : Nat
  filefd : Int
  dirstream : Option Nat
  hostpath : Option Path
  deriving DecidableEq, Repr

/-- The fields of the framework's `struct VfsInfo` that zipfs reads/writes,
with `data` fixed to the zipfs payload type. -/
structure VfsInfo where
  name : Option Path
  namelen : Nat
  data : ZipfsInfo
  dev : Nat
  ino : Nat
  mode : Nat
  deriving DecidableEq, Repr

/-- One step of `ZipfsHash`'s loop: `hash = *data++ + (hash << 6) + (hash << 16) - hash`
in u64 arithmetic.  For `hash < 2^64` the C wrap-around result equals this
natural-number expression reduced mod 2^64 (the shifts never make the sum
smaller than the subtrahend `hash`). -/
def ZipfsHashStep (hash b : Nat) : Nat :=
  (b + (hash <<< 6) + (hash <<< 16) - hash) % U64

/-- `ZipfsHash` (zipfs.c:43-54) on non-NULL data: seed with `parent`
(the host device id, reduced to u64) and fold the step over the bytes. -/
def ZipfsHash (parent : Nat) (data : List Nat) : Nat :=
  data.foldl ZipfsHashStep (parent % U64)

/-- The little-endian byte representation of the 8-byte host inode number,
the `(const char *)&st.st_ino, sizeof(st.st_ino)` view the call sites take. -/
def inoBytes (ino : Nat) : List Nat :=
  (List.range 8).map (fun i => ino / 2 ^ (8 * i) % 256)

/-- Modelled from the spec (section 4.3 Inode Synthesizer): `synth` as the
spec words it, `h = seed; for each byte b: h = b + (h<<6) + (h<<16) - h`,
written with multiplications by 2^6 and 2^16.  Used only to compare with
the source-derived `ZipfsHash`. -/
def synthSpec (seed : Nat) (bytes : List Nat) : Nat :=
  bytes.foldl (fun h b => (b + h * 2 ^ 6 + h * 2 ^ 16 - h) % U64) (seed % U64)

/-- `ZipfsBuildHostPath` (zipfs.c:191-213): returns NULL when the parent
payload has no host path, else `parent->hostpath ++ "/" ++ name`
(allocation failure elided). -/
def ZipfsBuildHostPath (parent : ZipfsInfo) (name : Path) : Option Path :=
  match parent.hostpath with
  | none => none
  | some p => some (p ++ '/' :: name)

/-- `ZipfsCreateInfo` (zipfs.c:150-160), successful-allocation case:
the freshly initialised payload. -/
def ZipfsCreateInfo : ZipfsInfo :=
  { mode := 0, filefd := -1, dirstream := none, hostpath := none }

/-- `ZipfsFinddir` (zipfs.c:215-286): lookup of `name` under `parent`.
Requires a directory parent, builds the host path, stats it on the host
(failure passed through), and assembles the new node: payload with the host
mode and path and no open descriptor or stream, virtual `dev` copied from
the parent, `ino` synthesized by `ZipfsHash` over the host (dev, ino) pair.
Allocation failures of the payload/node/name copy are elided. -/
def ZipfsFinddir (hst : Host) (parent : VfsInfo) (name : Path) :
    Except Err VfsInfo × List HostCall :=
  if ¬ S_ISDIR parent.mode then (.error .ENOTDIR, [])
  else
    match ZipfsBuildHostPath parent.data name with
    | none => (.error .ENOMEM, [])
    | some hostpath =>
      match hst.statH hostpath with
      | .error e => (.error (.hostErr e), [.statC hostpath])
      | .ok st =>
        (.ok { name := some name
               namelen := name.length
               data := { mode := st.st_mode, filefd := -1, dirstream := none,
                         hostpath := some hostpath }
               dev := parent.dev
               ino := ZipfsHash st.st_dev (inoBytes st.st_ino)
               mode := st.st_mode },
         [.statC hostpath])

/-- `ZipfsOpen` (zipfs.c:288-371): open `name` under `parent`.  After the
directory check it rejects any non-read-only access mode and any
creat/trunc/append flag with `EACCES` before touching the host; otherwise it
opens the host path read-only, fstats the descriptor (closing it on fstat
failure), and assembles the node with the descriptor stored in the payload.
The unused `mode` argument of the C signature is dropped; allocation
failures after the open are elided. -/
def ZipfsOpen (hst : Host) (parent : VfsInfo) (name : Path) (flags : Nat) :
    Except Err VfsInfo × List HostCall :=
  if ¬ S_ISDIR parent.mode then (.error .ENOTDIR, [])
  else if flags &&& O_ACCMODE ≠ O_RDONLY then (.error .EACCES, [])
  else if flags &&& (O_CREAT ||| O_TRUNC ||| O_APPEND) ≠ 0 then (.error .EACCES, [])
  else
    match ZipfsBuildHostPath parent.data name with
    | none => (.error .ENOMEM, [])
    | some hostpath =>
      match hst.openH hostpath with
      | .error e => (.error (.hostErr e), [.openC hostpath])
      | .ok fd =>
        match hst.fstatH fd with
        | .error e =>
            (.error (.hostErr e), [.openC hostpath, .fstatC fd, .closeC fd])
        | .ok st =>
          (.ok { name := some name
                 namelen := name.length
                 data := { mode := st.st_mode, filefd := fd, dirstream := none,
                           hostpath := some hostpath }
                 dev := parent.dev
                 ino := ZipfsHash st.st_dev (inoBytes st.st_ino)
                 mode := st.st_mode },
           [.openC hostpath, .fstatC fd])

/-- `ZipfsAccess` (zipfs.c:373-399): denies any W_OK request with `EACCES`
before building the host path; otherwise forwards to host `access` and
returns its result verbatim.  The unused `flags` argument is dropped. -/
def ZipfsAccess (hst : Host) (parent : VfsInfo) (name : Path) (mode : Nat) :
    Except Err Unit × List HostCall :=
  if mode &&& W_OK ≠ 0 then (.error .EACCES, [])
  else
    match ZipfsBuildHostPath parent.data name with
    | none => (.error .ENOMEM, [])
    | some hostpath =>
      match hst.accessH hostpath mode with
      | .error e => (.error (.hostErr e), [.accessC hostpath mode])
      | .ok _ => (.ok (), [.accessC hostpath mode])

/-- `ZipfsStat` (zipfs.c:401-433): stat (or lstat under
`AT_SYMLINK_NOFOLLOW`) the built host path; on success rewrite `st_ino` to
the hash of the host (dev, ino) pair and `st_dev` to the parent's virtual
device id, in that order (the hash reads the original host fields). -/
def ZipfsStat (hst : Host) (parent : VfsInfo) (name : Path) (flags : Nat) :
    Except Err HostStat × List HostCall :=
  match ZipfsBuildHostPath parent.data name with
  | none => (.error .ENOMEM, [])
  | some hostpath =>
    if flags &&& AT_SYMLINK_NOFOLLOW ≠ 0 then
      match hst.lstatH hostpath with
      | .error e => (.error (.hostErr e), [.lstatC hostpath])
      | .ok st =>
        (.ok { st with st_ino := ZipfsHash st.st_dev (inoBytes st.st_ino)
                       st_dev := parent.dev },
         [.lstatC hostpath])
    else
      match hst.statH hostpath with
      | .error e => (.error (.hostErr e), [.statC hostpath])
      | .ok st =>
        (.ok { st with st_ino := ZipfsHash st.st_dev (inoBytes st.st_ino)
                       st_dev := parent.dev },
         [.statC hostpath])

/-- `ZipfsFstat` (zipfs.c:435-462): fstat the open descriptor when there is
one, else stat the stored host path when there is one, else `EBADF`; on
success rewrite `st_ino`/`st_dev` exactly as `ZipfsStat` does, with the
node's virtual device id. -/
def ZipfsFstat (hst : Host) (info : VfsInfo) :
    Except Err HostStat × List HostCall :=
  if info.data.filefd ≠ -1 then
    match hst.fstatH info.data.filefd with
    | .error e => (.error (.hostErr e), [.fstatC info.data.filefd])
    | .ok st =>
      (.ok { st with st_ino := ZipfsHash st.st_dev (inoBytes st.st_ino)
                     st_dev := info.dev },
       [.fstatC info.data.filefd])
  else
    match info.data.hostpath with
    | some hostpath =>
      match hst.statH hostpath with
      | .error e => (.error (.hostErr e), [.statC hostpath])
      | .ok st =>
        (.ok { st with st_ino := ZipfsHash st.st_dev (inoBytes st.st_ino)
                       st_dev := info.dev },
         [.statC hostpath])
    | none => (.error .EBADF, [])

/-- `ZipfsClose` (zipfs.c:464-482): `EBADF` when no descriptor is open;
otherwise close it on the host, clear the field unconditionally, and return
the host close's result. -/
def ZipfsClose (hst : Host) (zipinfo : ZipfsInfo) :
    Except Err Unit × ZipfsInfo × List HostCall :=
  if zipinfo.filefd = -1 then (.error .EBADF, zipinfo, [])
  else
    match hst.closeH zipinfo.filefd with
    | .error e =>
        (.error (.hostErr e), { zipinfo with filefd := -1 }, [.closeC zipinfo.filefd])
    | .ok _ => (.ok (), { zipinfo with filefd := -1 }, [.closeC zipinfo.filefd])

/-- `ZipfsRead` (zipfs.c:484-499): `EBADF` when no descriptor is open,
else forward to host `read`. -/
def ZipfsRead (hst : Host) (zipinfo : ZipfsInfo) (size : Nat) :
    Except Err (List Nat) × List HostCall :=
  if zipinfo.filefd = -1 then (.error .EBADF, [])
  else
    match hst.readH zipinfo.filefd size with
    | .error e => (.error (.hostErr e), [.readC zipinfo.filefd size])
    | .ok bs => (.ok bs, [.readC zipinfo.filefd size])

/-- `ZipfsReadv` (zipfs.c:501-516): `EBADF` when no descriptor is open,
else forward to host `readv`. -/
def ZipfsReadv (hst : Host) (zipinfo : ZipfsInfo) (iovcnt : Nat) :
    Except Err Int × List HostCall :=
  if zipinfo.filefd = -1 then (.error .EBADF, [])
  else
    match hst.readvH zipinfo.filefd iovcnt with
    | .error e => (.error (.hostErr e), [.readvC zipinfo.filefd iovcnt])
    | .ok n => (.ok n, [.readvC zipinfo.filefd iovcnt])

/-- `ZipfsPread` (zipfs.c:518-533): `EBADF` when no descriptor is open,
else forward to host `pread`. -/
def ZipfsPread (hst : Host) (zipinfo : ZipfsInfo) (size : Nat) (offset : Int) :
    Except Err (List Nat) × List HostCall :=
  if zipinfo.filefd = -1 then (.error .EBADF, [])
  else
    match hst.preadH zipinfo.filefd size offset with
    | .error e => (.error (.hostErr e), [.preadC zipinfo.filefd size offset])
    | .ok bs => (.ok bs, [.preadC zipinfo.filefd size offset])

/-- `ZipfsSeek` (zipfs.c:535-550): `EBADF` when no descriptor is open,
else forward to host `lseek`. -/
def ZipfsSeek (hst : Host) (zipinfo : ZipfsInfo) (offset : Int) (whence : Nat) :
    Except Err Int × List HostCall :=
  if zipinfo.filefd = -1 then (.error .EBADF, [])
  else
    match hst.lseekH zipinfo.filefd offset whence with
    | .error e => (.error (.hostErr e), [.lseekC zipinfo.filefd offset whence])
    | .ok r => (.ok r, [.lseekC zipinfo.filefd offset whence])

/-- `ZipfsOpendir` (zipfs.c:552-580): requires a directory-mode payload
(`ENOTDIR`) with a host path (`EBADF`); opens a host directory stream and
stores it in the payload.  The extra framework reference the C code
acquires on the node is outside the payload model. -/
def ZipfsOpendir (hst : Host) (zipinfo : ZipfsInfo) :
    Except Err Unit × ZipfsInfo × List HostCall :=
  if ¬ S_ISDIR zipinfo.mode then (.error .ENOTDIR, zipinfo, [])
  else
    match zipinfo.hostpath with
    | none => (.error .EBADF, zipinfo, [])
    | some hostpath =>
      match hst.opendirH hostpath with
      | .error e => (.error (.hostErr e), zipinfo, [.opendirC hostpath])
      | .ok s => (.ok (), { zipinfo with dirstream := some s }, [.opendirC hostpath])

/-- `ZipfsReaddir` (zipfs.c:582-598): with no active stream it returns the
NULL dirent pointer *without* raising any errno; with a stream it forwards
to host `readdir`. -/
def ZipfsReaddir (hst : Host) (zipinfo : ZipfsInfo) :
    Except Err (Option Dirent) × List HostCall :=
  match zipinfo.dirstream with
  | none => (.ok none, [])
  | some s => (.ok (hst.readdirH s), [.readdirC s])

/-- `ZipfsRewinddir` (zipfs.c:600-614): a void function; silently does
nothing when no stream is active, else forwards to host `rewinddir`. -/
def ZipfsRewinddir (zipinfo : ZipfsInfo) : Unit × List HostCall :=
  match zipinfo.dirstream with
  | none => ((), [])
  | some s => ((), [.rewinddirC s])

/-- `ZipfsSeekdir` (zipfs.c:617-631): a void function; silently does
nothing when no stream is active, else forwards to host `seekdir`. -/
def ZipfsSeekdir (zipinfo : ZipfsInfo) (loc : Int) : Unit × List HostCall :=
  match zipinfo.dirstream with
  | none => ((), [])
  | some s => ((), [.seekdirC s loc])

/-- `ZipfsTelldir` (zipfs.c:633-649): `EBADF` when no stream is active,
else forwards to host `telldir`. -/
def ZipfsTelldir (hst : Host) (zipinfo : ZipfsInfo) :
    Except Err Int × List HostCall :=
  match zipinfo.dirstream with
  | none => (.error .EBADF, [])
  | some s => (.ok (hst.telldirH s), [.telldirC s])

/-- `ZipfsClosedir` (zipfs.c:652-673): `EBADF` when no stream is active;
otherwise close it on the host, and only on success clear the field (the
framework reference drop is outside the payload model). -/
def ZipfsClosedir (hst : Host) (zipinfo : ZipfsInfo) :
    Except Err Unit × ZipfsInfo × List HostCall :=
  match zipinfo.dirstream with
  | none => (.error .EBADF, zipinfo, [])
  | some s =>
    match hst.closedirH s with
    | .error e => (.error (.hostErr e), zipinfo, [.closedirC s])
    | .ok _ => (.ok (), { zipinfo with dirstream := none }, [.closedirC s])

/-- `ZipfsReadlink` (zipfs.c:675-680): always `EINVAL`. -/
def ZipfsReadlink : Except Err Path × List HostCall :=
  (.error .EINVAL, [])

/-- The seven heap objects `ZipfsInit` allocates, in program order:
the `ZipfsDevice` record, its `strdup`ed source string, the generic
`VfsDevice`, the `VfsMount` record, the generic root `VfsInfo`, the root
`ZipfsInfo` payload, and the payload's `strdup`ed host path. -/
inductive AllocStep where
  | zipdeviceA
  | sourceA
  | vfsdeviceA
  | mountA
  | rootnodeA
  | payloadA
  | hostpathA
  deriving DecidableEq, Repr

/-- Remove freed objects from the live list (`free` on an object not in the
list, e.g. a NULL pointer, is a no-op, as in C). -/
def freeObjs (live objs : List AllocStep) : List AllocStep :=
  live.filter (fun o => ! objs.contains o)

/-- The local/output pointer state `ZipfsInit`'s `cleananddie` block
branches on: which pointers are non-NULL when the `goto` fires. -/
structure InitLocals where
  live : List AllocStep
  zipdeviceP : Bool
  deviceP : Bool
  mountP : Bool
  rootP : Bool
  rootDataP : Bool
  payloadP : Bool
  deriving DecidableEq, Repr

/-- The `cleananddie` block (zipfs.c:129-147).  Returns the objects still
live after the cleanup and whether the cleanup dereferenced a NULL pointer
(`free(zipfsrootinfo->hostpath)` at zipfs.c:142 with `zipfsrootinfo ==
NULL`).  `VfsFreeDevice`/`VfsFreeInfo` are modelled from the spec
(sections 4.5, 6): releasing the generic device frees the device record and,
through the registered `Freedevice` handler, the `ZipfsDevice` and its
source string; releasing the generic root node frees the node and, through
`Freeinfo`, its attached payload — but only the payload actually wired into
the node's `data` field. -/
def cleananddie (s : InitLocals) : List AllocStep × Bool :=
  let live :=
    if s.deviceP then
      freeObjs s.live [.vfsdeviceA, .zipdeviceA, .sourceA]
    else if s.zipdeviceP then
      freeObjs s.live [.zipdeviceA, .sourceA]
    else s.live
  if s.mountP then
    if s.rootP then
      let live :=
        freeObjs live
          (.rootnodeA :: if s.rootDataP then [.payloadA, .hostpathA] else [])
      (freeObjs live [.mountA], false)
    else
      if s.payloadP then
        (freeObjs live [.hostpathA, .payloadA, .mountA], false)
      else
        -- free(zipfsrootinfo->hostpath) with zipfsrootinfo == NULL
        (live, true)
  else (live, false)

/-- The fixed default source path `"/zip"` (zipfs.c:64). -/
def zipDefault : Path := ['/', 'z', 'i', 'p']

/-- `src = (source && source[0]) ? source : "/zip"` (zipfs.c:64):
an unset (NULL) or empty source falls back to the default. -/
def defaultSource (source : Option Path) : Path :=
  match source with
  | none => zipDefault
  | some s => if s = [] then zipDefault else s

/-- What a successful `ZipfsInit` builds, as far as the claims observe it:
the device record's source string and stripped length, and the root node's
payload, mode and synthetic inode. -/
structure InitResult where
  source : Path
  sourcelen : Nat
  rootinfo : ZipfsInfo
  rootmode : Nat
  rootino : Nat
  deriving DecidableEq, Repr

/-- Full outcome of a `ZipfsInit` run: the result, the heap objects still
allocated on return (everything built, on success; leaks, on failure),
whether any cleanup dereferenced NULL, and the host calls issued. -/
structure InitOut where
  result : Except Err InitResult
  live : List AllocStep
  nullDeref : Bool
  calls : List HostCall
  deriving Repr

/-- An allocation-failure return from `ZipfsInit`: `-1` with `ENOMEM` (or
the framework allocator's own out-of-memory error), the heap as
`cleananddie` leaves it. -/
def initFailOut (s : InitLocals) (calls : List HostCall) : InitOut :=
  { result := .error .ENOMEM
    live := (cleananddie s).1
    nullDeref := (cleananddie s).2
    calls := calls }

/-- `ZipfsInit` (zipfs.c:56-148) with an allocation oracle deciding each
allocation's success in program order.  Host errors from the initial `stat`
pass through verbatim; a non-directory source fails with `ENOTDIR`; the
allocation-failure paths run `cleananddie` with exactly the pointers the C
code has set at that point (`(*mount)->root->data` is wired only at
zipfs.c:118, after every fallible step).  Framework allocators are modelled
from the spec as failing with `OutOfMemory` and leaving their output NULL. -/
def ZipfsInit (hst : Host) (source : Option Path) (alloc : AllocStep → Bool) :
    InitOut :=
  let src := defaultSource source
  match hst.statH src with
  | .error e =>
    { result := .error (.hostErr e), live := [], nullDeref := false,
      calls := [.statC src] }
  | .ok st =>
  if ¬ S_ISDIR st.st_mode then
    { result := .error .ENOTDIR, live := [], nullDeref := false,
      calls := [.statC src] }
  else
  if ¬ alloc .zipdeviceA then
    { result := .error .ENOMEM, live := [], nullDeref := false,
      calls := [.statC src] }
  else
  if ¬ alloc .sourceA then
    initFailOut
      { live := [.zipdeviceA], zipdeviceP := true, deviceP := false,
        mountP := false, rootP := false, rootDataP := false, payloadP := false }
      [.statC src]
  else
  -- zipfs.c:86-91: sourcelen = strlen(source), minus any trailing slash
  let sourcelen := if src.length > 0 ∧ src.getLast? = some '/'
                   then src.length - 1 else src.length
  if ¬ alloc .vfsdeviceA then
    initFailOut
      { live := [.zipdeviceA, .sourceA], zipdeviceP := true, deviceP := false,
        mountP := false, rootP := false, rootDataP := false, payloadP := false }
      [.statC src]
  else
  -- (*device)->data = zipdevice; (*device)->ops = &g_zipfs.ops (zipfs.c:96-97)
  if ¬ alloc .mountA then
    initFailOut
      { live := [.zipdeviceA, .sourceA, .vfsdeviceA], zipdeviceP := true,
        deviceP := true, mountP := false, rootP := false, rootDataP := false,
        payloadP := false }
      [.statC src]
  else
  if ¬ alloc .rootnodeA then
    initFailOut
      { live := [.zipdeviceA, .sourceA, .vfsdeviceA, .mountA],
        zipdeviceP := true, deviceP := true, mountP := true, rootP := false,
        rootDataP := false, payloadP := false }
      [.statC src]
  else
  if ¬ alloc .payloadA then
    initFailOut
      { live := [.zipdeviceA, .sourceA, .vfsdeviceA, .mountA, .rootnodeA],
        zipdeviceP := true, deviceP := true, mountP := true, rootP := true,
        rootDataP := false, payloadP := false }
      [.statC src]
  else
  if ¬ alloc .hostpathA then
    initFailOut
      { live := [.zipdeviceA, .sourceA, .vfsdeviceA, .mountA, .rootnodeA,
                 .payloadA],
        zipdeviceP := true, deviceP := true, mountP := true, rootP := true,
        rootDataP := false, payloadP := true }
      [.statC src]
  else
  -- zipfs.c:116-124: wire mode, root->data, root->mode, root->ino
  { result := .ok
      { source := src
        sourcelen := sourcelen
        rootinfo := { mode := st.st_mode, filefd := -1, dirstream := none,
                      hostpath := some src }
        rootmode := st.st_mode
        rootino := ZipfsHash st.st_dev (inoBytes st.st_ino) }
    live := [.zipdeviceA, .sourceA, .vfsdeviceA, .mountA, .rootnodeA,
             .payloadA, .hostpathA]
    nullDeref := false
    calls := [.statC src] }

/-- Modelled from the spec (sections 3, 4.1): the "canonicalized
(trailing-slash-stripped)" form of a source path.  Used only to state what
the spec claims the stored strings are. -/
def stripSlash (s : Path) : Path :=
  if s.getLast? = some '/' then s.dropLast else s

/-- The adapter operations that act on an already-created node, for the
per-payload state machine of spec section 4.4. -/
inductive NodeOp where
  | closeO
  | opendirO
  | closedirO
  | readO (size : Nat)
  | readvO (cnt : Nat)
  | preadO (size : Nat) (off : Int)
  | seekO (off : Int) (whence : Nat)
  | readdirO
  | rewinddirO
  | seekdirO (loc : Int)
  | telldirO
  | fstatO
  deriving DecidableEq, Repr

/-- The payload-state effect of one adapter operation.  Only `ZipfsClose`,
`ZipfsOpendir` and `ZipfsClosedir` write any `ZipfsInfo` field in the C
code; every other entry point leaves the payload unchanged. -/
def applyOp (hst : Host) (zipinfo : ZipfsInfo) : NodeOp → ZipfsInfo
  | .closeO => (ZipfsClose hst zipinfo).2.1
  | .opendirO => (ZipfsOpendir hst zipinfo).2.1
  | .closedirO => (ZipfsClosedir hst zipinfo).2.1
  | _ => zipinfo

/-- Run a sequence of adapter operations over one node's payload. -/
def applyOps (hst : Host) (ops : List NodeOp) (zipinfo : ZipfsInfo) : ZipfsInfo :=
  ops.foldl (applyOp hst) zipinfo

/-- The payloads the adapter itself creates: a fresh `ZipfsCreateInfo`
record, a lookup result's payload, or an open result's payload. -/
def Created (hst : Host) (z : ZipfsInfo) : Prop :=
  z = ZipfsCreateInfo ∨
  (∃ parent name out tr,
      ZipfsFinddir hst parent name = (.ok out, tr) ∧ z = out.data) ∨
  (∃ parent name flags out tr,
      ZipfsOpen hst parent name flags = (.ok out, tr) ∧ z = out.data)

/-- Hosts on which a successful read-only `open` always designates a
regular file (the host never hands zipfs an open descriptor whose `fstat`
mode is anything but `S_IFREG`). -/
def RegOnly (hst : Host) : Prop :=
  ∀ p fd st, hst.openH p = .ok fd → hst.fstatH fd = .ok st → S_ISREG st.st_mode

/-- Spec section 3's payload invariant: at most one of
{file descriptor, directory stream} active, each consistent with the mode. -/
def PayloadInv (z : ZipfsInfo) : Prop :=
  (z.filefd = -1 ∨ z.dirstream = none) ∧
  (z.dirstream ≠ none → S_ISDIR z.mode = true) ∧
  (z.filefd ≠ -1 → S_ISREG z.mode = true)

/-- Sample host fixtures for concrete witnesses: a root directory `"/zip"`
containing a regular file `"a"` (fd 3) and a subdirectory `"s"` (fd 4). -/
def dirMode : Nat := 0o040755

def regMode : Nat := 0o100644

def rootStat : HostStat := { st_dev := 7, st_ino := 42, st_mode := dirMode }

def fileStat : HostStat := { st_dev := 7, st_ino := 43, st_mode := regMode }

def subStat : HostStat := { st_dev := 7, st_ino := 44, st_mode := dirMode }

def rootPath : Path := zipDefault

def filePath : Path := zipDefault ++ '/' :: ['a']

def subPath : Path := zipDefault ++ '/' :: ['s']

def sampleHost : Host :=
  { statH := fun p =>
      if p = rootPath then .ok rootStat
      else if p = filePath then .ok fileStat
      else if p = subPath then .ok subStat
      else .error 2
    lstatH := fun p => if p = filePath then .ok fileStat else .error 2
    openH := fun p =>
      if p = filePath then .ok 3
      else if p = subPath then .ok 4
      else .error 2
    fstatH := fun fd =>
      if fd = 3 then .ok fileStat
      else if fd = 4 then .ok subStat
      else .error 9
    accessH := fun _ _ => .ok ()
    closeH := fun _ => .ok ()
    readH := fun _ n => .ok (List.replicate n 0)
    readvH := fun _ _ => .ok 0
    preadH := fun _ n _ => .ok (List.replicate n 0)
    lseekH := fun _ o _ => .ok o
    opendirH := fun p =>
      if p = rootPath then .ok 9
      else if p = subPath then .ok 10
      else .error 2
    readdirH := fun _ => some { d_name := ['a'] }
    telldirH := fun _ => 0
    closedirH := fun _ => .ok () }

/-- A host satisfying `RegOnly`: only the regular file `"a"` can be opened. -/
def regHost : Host :=
  { sampleHost with
    openH := fun p => if p = filePath then .ok 3 else .error 2
    fstatH := fun fd => if fd = 3 then .ok fileStat else .error 9 }

/-- The virtual root node of the sample mount, with virtual device id 100. -/
def rootNode : VfsInfo :=
  { name := none, namelen := 0
    data := { mode := dirMode, filefd := -1, dirstream := none,
              hostpath := some rootPath }
    dev := 100, ino := ZipfsHash 7 (inoBytes 42), mode := dirMode }

/-- The node `ZipfsFinddir sampleHost rootNode ['a']` builds. -/
def fileNode : VfsInfo :=
  { name := some ['a'], namelen := 1
    data := { mode := regMode, filefd := -1, dirstream := none,
              hostpath := some filePath }
    dev := 100, ino := ZipfsHash 7 (inoBytes 43), mode := regMode }

/-- The node `ZipfsOpen sampleHost rootNode ['a'] O_RDONLY` builds:
the regular file, opened, descriptor 3. -/
def openedFileNode : VfsInfo :=
  { name := some ['a'], namelen := 1
    data := { mode := regMode, filefd := 3, dirstream := none,
              hostpath := some filePath }
    dev := 100, ino := ZipfsHash 7 (inoBytes 43), mode := regMode }

/-- The node `ZipfsOpen sampleHost rootNode ['s'] O_RDONLY` builds: the
subdirectory, opened via the file path, holding descriptor 4 with a
directory mode. -/
def openedSubNode : VfsInfo :=
  { name := some ['s'], namelen := 1
    data := { mode := dirMode, filefd := 4, dirstream := none,
              hostpath := some subPath }
    dev := 100, ino := ZipfsHash 7 (inoBytes 44), mode := dirMode }

/-- A payload whose file was closed (or never opened): no descriptor. -/
def closedPayload : ZipfsInfo :=
  { mode := regMode, filefd := -1, dirstream := none, hostpath := some filePath }

/-- A payload holding descriptor 3 on the sample regular file. -/
def openPayload : ZipfsInfo :=
  { mode := regMode, filefd := 3, dirstream := none, hostpath := some filePath }

/-- A directory payload with no active stream. -/
def noStreamPayload : ZipfsInfo :=
  { mode := dirMode, filefd := -1, dirstream := none, hostpath := some subPath }

/-- A payload with neither a descriptor nor a host path. -/
def barePayload : ZipfsInfo :=
  { mode := regMode, filefd := -1, dirstream := none, hostpath := none }

/-- A source path with a trailing slash, `"/zip/"`. -/
def slashPath : Path := ['/', 'z', 'i', 'p', '/']

/-- A host whose directory lives at `"/zip/"` (for mounting with a
trailing-slash source). -/
def slashHost : Host :=
  { sampleHost with
    statH := fun p => if p = slashPath then .ok rootStat else .error 2 }

/-- A host on which `"/zip"` exists but is a regular file. -/
def notDirHost : Host :=
  { sampleHost with statH := fun _ => .ok fileStat }

/-- The always-succeeding allocation oracle. -/
def allocAll : AllocStep → Bool := fun _ => true

/-- An oracle failing exactly one allocation step. -/
def allocAllBut (a : AllocStep) : AllocStep → Bool := fun x => x != a

/-- The virtual stat record zipfs reports for the sample regular file. -/
def statOutFile : HostStat :=
  { st_dev := 100, st_ino := ZipfsHash 7 (inoBytes 43), st_mode := regMode }

/-- What a successful `ZipfsInit` on source `"/zip/"` (trailing slash)
builds: both stored strings keep the trailing slash; only `sourcelen` is
stripped. -/
def slashInitResult : InitResult :=
  { source := slashPath
    sourcelen := 4
    rootinfo := { mode := dirMode, filefd := -1, dirstream := none,
                  hostpath := some slashPath }
    rootmode := dirMode
    rootino := ZipfsHash 7 (inoBytes 42) }

/-! Helper lemmas shared by the claim theorems. -/

/-- A mode whose type bits say directory does not say regular file. -/
theorem isdir_not_isreg {m : Nat} (h : S_ISDIR m = true) : S_ISREG m = false := by
  simp only [S_ISDIR, S_ISREG, beq_iff_eq] at h ⊢
  rw [h]
  decide

/-- The source hash equals the spec's formula: the shifts are
multiplications by 2^6 and 2^16. -/
theorem zipfsHash_eq_synthSpec (seed : Nat) (bytes : List Nat) :
    ZipfsHash seed bytes = synthSpec seed bytes := by
  have hstep : ZipfsHashStep = fun h b => (b + h * 2 ^ 6 + h * 2 ^ 16 - h) % U64 := by
    funext h b
    simp [ZipfsHashStep, Nat.shiftLeft_eq]
  rw [ZipfsHash, synthSpec, hstep]

/-- Inversion of a successful `ZipfsFinddir`: the node it returns is built
from the host stat of the joined path, with the inode synthesized by
`ZipfsHash` from the host (device, inode) pair. -/
theorem zipfsFinddir_ok_shape {hst : Host} {parent : VfsInfo} {name : Path}
    {out : VfsInfo} {tr : List HostCall}
    (h : ZipfsFinddir hst parent name = (.ok out, tr)) :
    ∃ hp st, ZipfsBuildHostPath parent.data name = some hp ∧
      hst.statH hp = .ok st ∧
      out = { name := some name, namelen := name.length
              data := { mode := st.st_mode, filefd := -1, dirstream := none,
                        hostpath := some hp }
              dev := parent.dev
              ino := ZipfsHash st.st_dev (inoBytes st.st_ino)
              mode := st.st_mode } ∧
      tr = [.statC hp] := by
  unfold ZipfsFinddir at h
  split at h
  · simp at h
  · split at h
    · simp at h
    · rename_i hp hbp
      split at h
      · simp at h
      · rename_i st hstat
        simp only [Prod.mk.injEq] at h
        obtain ⟨h1, h2⟩ := h
        injection h1 with h1
        exact ⟨hp, st, hbp, hstat, h1.symm, h2.symm⟩

/-- Inversion of a successful `ZipfsOpen`: the node holds the host
descriptor, and its inode is synthesized by `ZipfsHash` from the host
(device, inode) pair the `fstat` returned. -/
theorem zipfsOpen_ok_shape {hst : Host} {parent : VfsInfo} {name : Path}
    {flags : Nat} {out : VfsInfo} {tr : List HostCall}
    (h : ZipfsOpen hst parent name flags = (.ok out, tr)) :
    ∃ hp fd st, ZipfsBuildHostPath parent.data name = some hp ∧
      hst.openH hp = .ok fd ∧ hst.fstatH fd = .ok st ∧
      out = { name := some name, namelen := name.length
              data := { mode := st.st_mode, filefd := fd, dirstream := none,
                        hostpath := some hp }
              dev := parent.dev
              ino := ZipfsHash st.st_dev (inoBytes st.st_ino)
              mode := st.st_mode } ∧
      tr = [.openC hp, .fstatC fd] := by
  unfold ZipfsOpen at h
  split at h
  · simp at h
  · split at h
    · simp at h
    · split at h
      · simp at h
      · split at h
        · simp at h
        · rename_i hp hbp
          split at h
          · simp at h
          · rename_i fd hopen
            split at h
            · simp at h
            · rename_i st hfstat
              simp only [Prod.mk.injEq] at h
              obtain ⟨h1, h2⟩ := h
              injection h1 with h1
              exact ⟨hp, fd, st, hbp, hopen, hfstat, h1.symm, h2.symm⟩

/-- Inversion of a successful `ZipfsStat`: the returned record is the host
stat with `st_ino` rewritten to the synthesized inode (computed from the
original host fields) and `st_dev` rewritten to the parent's virtual
device id. -/
theorem zipfsStat_ok_shape {hst : Host} {parent : VfsInfo} {name : Path}
    {flags : Nat} {out : HostStat} {tr : List HostCall}
    (h : ZipfsStat hst parent name flags = (.ok out, tr)) :
    ∃ hp st, ZipfsBuildHostPath parent.data name = some hp ∧
      (hst.statH hp = .ok st ∨ hst.lstatH hp = .ok st) ∧
      out = { st with st_ino := ZipfsHash st.st_dev (inoBytes st.st_ino)
                      st_dev := parent.dev } := by
  unfold ZipfsStat at h
  split at h
  · simp at h
  · rename_i hp hbp
    split at h
    · split at h
      · simp at h
      · rename_i st hstat
        simp only [Prod.mk.injEq] at h
        obtain ⟨h1, -⟩ := h
        injection h1 with h1
        exact ⟨hp, st, hbp, Or.inr hstat, h1.symm⟩
    · split at h
      · simp at h
      · rename_i st hstat
        simp only [Prod.mk.injEq] at h
        obtain ⟨h1, -⟩ := h
        injection h1 with h1
        exact ⟨hp, st, hbp, Or.inl hstat, h1.symm⟩

/-- Inversion of a successful `ZipfsFstat`: the record comes from host
`fstat` of the open descriptor or host `stat` of the stored path, with
`st_ino` synthesized and `st_dev` set to the node's virtual device id. -/
theorem zipfsFstat_ok_shape {hst : Host} {info : VfsInfo} {out : HostStat}
    {tr : List HostCall}
    (h : ZipfsFstat hst info = (.ok out, tr)) :
    ∃ st, (hst.fstatH info.data.filefd = .ok st ∨
           (info.data.filefd = -1 ∧
            ∃ hp, info.data.hostpath = some hp ∧ hst.statH hp = .ok st)) ∧
      out = { st with st_ino := ZipfsHash st.st_dev (inoBytes st.st_ino)
                      st_dev := info.dev } := by
  unfold ZipfsFstat at h
  split at h
  · split at h
    · simp at h
    · rename_i st hfstat
      simp only [Prod.mk.injEq] at h
      obtain ⟨h1, -⟩ := h
      injection h1 with h1
      exact ⟨st, Or.inl hfstat, h1.symm⟩
  · rename_i hfd
    split at h
    · rename_i hp hhp
      split at h
      · simp at h
      · rename_i st hstat
        simp only [Prod.mk.injEq] at h
        obtain ⟨h1, -⟩ := h
        injection h1 with h1
        refine ⟨st, Or.inr ⟨?_, hp, hhp, hstat⟩, h1.symm⟩
        simpa using hfd
    · simp at h

/-- Claim C1: `ZipfsHash` on a 64-bit seed and a byte sequence is exactly the
rolling hash `h = seed; for each byte b: h = b + (h<<6) + (h<<16) - h` over
the bytes in order (it coincides with the spec's formula), it is a pure
deterministic function (identical inputs give identical outputs), and every
operation that derives a virtual inode (lookup, open, stat, fstat) applies
this identical function to the host (device, inode) pair it statted, so the
same host pair always yields the same virtual inode. -/
theorem C1_hash_pure_deterministic_uniform :
    (∀ seed bytes, ZipfsHash seed bytes = synthSpec seed bytes) ∧
    (∀ s1 s2 b1 b2, s1 = s2 → b1 = b2 → ZipfsHash s1 b1 = ZipfsHash s2 b2) ∧
    (∀ hst parent name out tr, ZipfsFinddir hst parent name = (.ok out, tr) →
      ∃ hp st, hst.statH hp = .ok st ∧
        out.ino = ZipfsHash st.st_dev (inoBytes st.st_ino)) ∧
    (∀ hst parent name flags out tr,
        ZipfsOpen hst parent name flags = (.ok out, tr) →
      ∃ fd st, hst.fstatH fd = .ok st ∧
        out.ino = ZipfsHash st.st_dev (inoBytes st.st_ino)) ∧
    (∀ hst parent name flags out tr,
        ZipfsStat hst parent name flags = (.ok out, tr) →
      ∃ hp st, (hst.statH hp = .ok st ∨ hst.lstatH hp = .ok st) ∧
        out.st_ino = ZipfsHash st.st_dev (inoBytes st.st_ino)) ∧
    (∀ hst info out tr, ZipfsFstat hst info = (.ok out, tr) →
      ∃ st, (hst.fstatH info.data.filefd = .ok st ∨
             ∃ hp, info.data.hostpath = some hp ∧ hst.statH hp = .ok st) ∧
        out.st_ino = ZipfsHash st.st_dev (inoBytes st.st_ino)) := by
  refine ⟨zipfsHash_eq_synthSpec, ?_, ?_, ?_, ?_, ?_⟩
  · intro s1 s2 b1 b2 hs hb
    rw [hs, hb]
  · intro hst parent name out tr h
    obtain ⟨hp, st, -, hstat, hout, -⟩ := zipfsFinddir_ok_shape h
    exact ⟨hp, st, hstat, by rw [hout]⟩
  · intro hst parent name flags out tr h
    obtain ⟨hp, fd, st, -, -, hfstat, hout, -⟩ := zipfsOpen_ok_shape h
    exact ⟨fd, st, hfstat, by rw [hout]⟩
  · intro hst parent name flags out tr h
    obtain ⟨hp, st, -, hstat, hout⟩ := zipfsStat_ok_shape h
    exact ⟨hp, st, hstat, by rw [hout]⟩
  · intro hst info out tr h
    obtain ⟨st, hsrc, hout⟩ := zipfsFstat_ok_shape h
    refine ⟨st, ?_, by rw [hout]⟩
    rcases hsrc with h1 | ⟨-, hp, hhp, hstat⟩
    · exact Or.inl h1
    · exact Or.inr ⟨hp, hhp, hstat⟩

/-- Witness for C1 on the sample mount: all six conjuncts instantiated at
concrete inputs, the adapter calls evaluated on `sampleHost`. -/
theorem C1_hash_pure_deterministic_uniform_witness :
    ZipfsHash 7 (inoBytes 42) = synthSpec 7 (inoBytes 42) ∧
    ZipfsHash 7 (inoBytes 42) = ZipfsHash 7 (inoBytes 42) ∧
    (∃ hp st, sampleHost.statH hp = .ok st ∧
       fileNode.ino = ZipfsHash st.st_dev (inoBytes st.st_ino)) ∧
    (∃ fd st, sampleHost.fstatH fd = .ok st ∧
       openedFileNode.ino = ZipfsHash st.st_dev (inoBytes st.st_ino)) ∧
    (∃ hp st, (sampleHost.statH hp = .ok st ∨ sampleHost.lstatH hp = .ok st) ∧
       statOutFile.st_ino = ZipfsHash st.st_dev (inoBytes st.st_ino)) ∧
    (∃ st, (sampleHost.fstatH fileNode.data.filefd = .ok st ∨
            ∃ hp, fileNode.data.hostpath = some hp ∧
              sampleHost.statH hp = .ok st) ∧
       statOutFile.st_ino = ZipfsHash st.st_dev (inoBytes st.st_ino)) :=
  ⟨C1_hash_pure_deterministic_uniform.1 7 (inoBytes 42),
   C1_hash_pure_deterministic_uniform.2.1 7 7 (inoBytes 42) (inoBytes 42)
     rfl rfl,
   C1_hash_pure_deterministic_uniform.2.2.1 sampleHost rootNode ['a']
     fileNode [.statC filePath] (by decide),
   C1_hash_pure_deterministic_uniform.2.2.2.1 sampleHost rootNode ['a'] 0
     openedFileNode [.openC filePath, .fstatC 3] (by decide),
   C1_hash_pure_deterministic_uniform.2.2.2.2.1 sampleHost rootNode ['a'] 0
     statOutFile [.statC filePath] (by decide),
   C1_hash_pure_deterministic_uniform.2.2.2.2.2 sampleHost fileNode
     statOutFile [.statC filePath] (by decide)⟩

/-- Claim C2: on a directory parent, any open request whose access mode is
not read-only or that carries `O_CREAT`/`O_TRUNC`/`O_APPEND` fails with
`EACCES` before any host call (empty trace, on every host), and any access
request with the `W_OK` bit fails with `EACCES` before any host call,
regardless of the host's permissions. -/
theorem C2_write_intent_denied :
    (∀ hst parent name flags,
        S_ISDIR parent.mode = true →
        (flags &&& O_ACCMODE ≠ O_RDONLY ∨
         flags &&& (O_CREAT ||| O_TRUNC ||| O_APPEND) ≠ 0) →
        ZipfsOpen hst parent name flags = (.error .EACCES, [])) ∧
    (∀ hst parent name mode,
        mode &&& W_OK ≠ 0 →
        ZipfsAccess hst parent name mode = (.error .EACCES, [])) := by
  constructor
  · intro hst parent name flags hdir hbad
    unfold ZipfsOpen
    rw [if_neg (by simp [hdir])]
    by_cases hacc : flags &&& O_ACCMODE ≠ O_RDONLY
    · rw [if_pos hacc]
    · rcases hbad with h1 | h2
      · exact absurd h1 hacc
      · rw [if_neg hacc, if_pos h2]
  · intro hst parent name mode hw
    unfold ZipfsAccess
    rw [if_pos hw]

/-- Witness for C2: opening the sample file with `O_WRONLY` (1) and with
`O_RDONLY|O_CREAT`, and an access check with `W_OK`, all denied with an
empty host trace. -/
theorem C2_write_intent_denied_witness :
    ZipfsOpen sampleHost rootNode ['a'] 1 = (.error .EACCES, []) ∧
    ZipfsOpen sampleHost rootNode ['a'] O_CREAT = (.error .EACCES, []) ∧
    ZipfsAccess sampleHost rootNode ['a'] W_OK = (.error .EACCES, []) :=
  ⟨C2_write_intent_denied.1 sampleHost rootNode ['a'] 1 (by decide)
     (by decide),
   C2_write_intent_denied.1 sampleHost rootNode ['a'] O_CREAT (by decide)
     (by decide),
   C2_write_intent_denied.2 sampleHost rootNode ['a'] W_OK (by decide)⟩

/-- Claim C3: every successful `ZipfsStat`/`ZipfsFstat` reports `st_dev`
equal to the node's virtual device id and `st_ino` equal to the
`ZipfsHash`-synthesized inode of the host (device, inode) pair the
underlying host stat returned — never the host-native values. -/
theorem C3_stat_reports_virtual_identity :
    (∀ hst parent name flags out tr,
        ZipfsStat hst parent name flags = (.ok out, tr) →
        out.st_dev = parent.dev ∧
        ∃ hp st, ZipfsBuildHostPath parent.data name = some hp ∧
          (hst.statH hp = .ok st ∨ hst.lstatH hp = .ok st) ∧
          out.st_ino = ZipfsHash st.st_dev (inoBytes st.st_ino)) ∧
    (∀ hst info out tr,
        ZipfsFstat hst info = (.ok out, tr) →
        out.st_dev = info.dev ∧
        ∃ st, (hst.fstatH info.data.filefd = .ok st ∨
               ∃ hp, info.data.hostpath = some hp ∧ hst.statH hp = .ok st) ∧
          out.st_ino = ZipfsHash st.st_dev (inoBytes st.st_ino)) := by
  constructor
  · intro hst parent name flags out tr h
    obtain ⟨hp, st, hbp, hstat, hout⟩ := zipfsStat_ok_shape h
    exact ⟨by rw [hout], hp, st, hbp, hstat, by rw [hout]⟩
  · intro hst info out tr h
    obtain ⟨st, hsrc, hout⟩ := zipfsFstat_ok_shape h
    refine ⟨by rw [hout], st, ?_, by rw [hout]⟩
    rcases hsrc with h1 | ⟨-, hp, hhp, hstat⟩
    · exact Or.inl h1
    · exact Or.inr ⟨hp, hhp, hstat⟩

/-- Witness for C3: the sample stat and fstat of the regular file, both
reporting virtual device 100 and the synthesized inode. -/
theorem C3_stat_reports_virtual_identity_witness :
    (statOutFile.st_dev = rootNode.dev ∧
     ∃ hp st, ZipfsBuildHostPath rootNode.data ['a'] = some hp ∧
       (sampleHost.statH hp = .ok st ∨ sampleHost.lstatH hp = .ok st) ∧
       statOutFile.st_ino = ZipfsHash st.st_dev (inoBytes st.st_ino)) ∧
    (statOutFile.st_dev = fileNode.dev ∧
     ∃ st, (sampleHost.fstatH fileNode.data.filefd = .ok st ∨
            ∃ hp, fileNode.data.hostpath = some hp ∧
              sampleHost.statH hp = .ok st) ∧
       statOutFile.st_ino = ZipfsHash st.st_dev (inoBytes st.st_ino)) :=
  ⟨C3_stat_reports_virtual_identity.1 sampleHost rootNode ['a'] 0 statOutFile
     [.statC filePath] (by decide),
   C3_stat_reports_virtual_identity.2 sampleHost fileNode statOutFile
     [.statC filePath] (by decide)⟩

/-- `ZipfsClose` on an open descriptor always clears the `filefd` field
(also when the host close fails). -/
theorem zipfsClose_clears {hst : Host} {z : ZipfsInfo} (h : z.filefd ≠ -1) :
    (ZipfsClose hst z).2.1 = { z with filefd := -1 } := by
  cases hc : hst.closeH z.filefd <;> simp [ZipfsClose, if_neg h, hc]

/-- Claim C4: with no active descriptor, every read variant, seek and close
fails with `EBADF` and issues no host call; and a successful close clears
the descriptor field, so a second close and a subsequent read on the same
payload fail with `EBADF`. -/
theorem C4_no_descriptor_ebadf :
    (∀ hst z size, z.filefd = -1 →
        ZipfsRead hst z size = (.error .EBADF, [])) ∧
    (∀ hst z cnt, z.filefd = -1 →
        ZipfsReadv hst z cnt = (.error .EBADF, [])) ∧
    (∀ hst z size off, z.filefd = -1 →
        ZipfsPread hst z size off = (.error .EBADF, [])) ∧
    (∀ hst z off whence, z.filefd = -1 →
        ZipfsSeek hst z off whence = (.error .EBADF, [])) ∧
    (∀ hst z, z.filefd = -1 →
        ZipfsClose hst z = (.error .EBADF, z, [])) ∧
    (∀ hst z, z.filefd ≠ -1 →
        (ZipfsClose hst z).2.1.filefd = -1 ∧
        ZipfsClose hst (ZipfsClose hst z).2.1 =
          (.error .EBADF, (ZipfsClose hst z).2.1, []) ∧
        ∀ size, ZipfsRead hst (ZipfsClose hst z).2.1 size =
          (.error .EBADF, [])) := by
  refine ⟨?_, ?_, ?_, ?_, ?_, ?_⟩
  · intro hst z size h
    simp [ZipfsRead, h]
  · intro hst z cnt h
    simp [ZipfsReadv, h]
  · intro hst z size off h
    simp [ZipfsPread, h]
  · intro hst z off whence h
    simp [ZipfsSeek, h]
  · intro hst z h
    simp [ZipfsClose, h]
  · intro hst z h
    rw [zipfsClose_clears h]
    refine ⟨rfl, ?_, ?_⟩
    · simp [ZipfsClose]
    · intro size
      simp [ZipfsRead]

/-- Witness for C4 on concrete payloads: the never-opened payload fails all
five operations, and closing the open payload clears the descriptor after
which close and read fail. -/
theorem C4_no_descriptor_ebadf_witness :
    ZipfsRead sampleHost closedPayload 16 = (.error .EBADF, []) ∧
    ZipfsReadv sampleHost closedPayload 2 = (.error .EBADF, []) ∧
    ZipfsPread sampleHost closedPayload 16 0 = (.error .EBADF, []) ∧
    ZipfsSeek sampleHost closedPayload 4 0 = (.error .EBADF, []) ∧
    ZipfsClose sampleHost closedPayload = (.error .EBADF, closedPayload, []) ∧
    ((ZipfsClose sampleHost openPayload).2.1.filefd = -1 ∧
     ZipfsClose sampleHost (ZipfsClose sampleHost openPayload).2.1 =
       (.error .EBADF, (ZipfsClose sampleHost openPayload).2.1, []) ∧
     ∀ size, ZipfsRead sampleHost (ZipfsClose sampleHost openPayload).2.1
       size = (.error .EBADF, [])) :=
  ⟨C4_no_descriptor_ebadf.1 sampleHost closedPayload 16 (by decide),
   C4_no_descriptor_ebadf.2.1 sampleHost closedPayload 2 (by decide),
   C4_no_descriptor_ebadf.2.2.1 sampleHost closedPayload 16 0 (by decide),
   C4_no_descriptor_ebadf.2.2.2.1 sampleHost closedPayload 4 0 (by decide),
   C4_no_descriptor_ebadf.2.2.2.2.1 sampleHost closedPayload (by decide),
   C4_no_descriptor_ebadf.2.2.2.2.2 sampleHost openPayload (by decide)⟩

/-- Claim C10: `ZipfsFstat` on a payload without an open descriptor but with
a resolved host path succeeds by statting the host path (or passes the host
stat error through), and returns `EBADF` exactly when the payload has
neither a descriptor nor a host path. -/
theorem C10_fstat_hostpath_fallback :
    (∀ hst info hp st, info.data.filefd = -1 →
        info.data.hostpath = some hp → hst.statH hp = .ok st →
        ZipfsFstat hst info =
          (.ok { st with st_ino := ZipfsHash st.st_dev (inoBytes st.st_ino)
                         st_dev := info.dev }, [.statC hp])) ∧
    (∀ hst info hp e, info.data.filefd = -1 →
        info.data.hostpath = some hp → hst.statH hp = .error e →
        ZipfsFstat hst info = (.error (.hostErr e), [.statC hp])) ∧
    (∀ hst info, info.data.filefd = -1 → info.data.hostpath = none →
        ZipfsFstat hst info = (.error .EBADF, [])) ∧
    (∀ hst info tr, (ZipfsFstat hst info) = (.error .EBADF, tr) →
        info.data.filefd = -1 ∧ info.data.hostpath = none) := by
  refine ⟨?_, ?_, ?_, ?_⟩
  · intro hst info hp st hfd hhp hstat
    simp [ZipfsFstat, hfd, hhp, hstat]
  · intro hst info hp e hfd hhp hstat
    simp [ZipfsFstat, hfd, hhp, hstat]
  · intro hst info hfd hhp
    simp [ZipfsFstat, hfd, hhp]
  · intro hst info tr h
    unfold ZipfsFstat at h
    split at h
    · split at h <;> simp_all
    · rename_i hfd
      split at h
      · split at h <;> simp_all
      · rename_i hhp
        constructor
        · simpa using hfd
        · exact hhp

/-- Witness for C10: fstat of the looked-up (never-opened) file node
succeeds by statting its host path; fstat of a payload with neither
descriptor nor path fails with `EBADF`, and the inversion recovers that. -/
theorem C10_fstat_hostpath_fallback_witness :
    ZipfsFstat sampleHost fileNode = (.ok statOutFile, [.statC filePath]) ∧
    ZipfsFstat sampleHost { fileNode with data := barePayload } =
      (.error .EBADF, []) ∧
    ({ fileNode with data := barePayload } : VfsInfo).data.filefd = -1 ∧
    ({ fileNode with data := barePayload } : VfsInfo).data.hostpath = none := by
  refine ⟨?_, ?_, ?_⟩
  · have h := C10_fstat_hostpath_fallback.1 sampleHost fileNode filePath
      fileStat (by decide) (by decide) (by decide)
    simpa using h
  · exact C10_fstat_hostpath_fallback.2.2.1 sampleHost
      { fileNode with data := barePayload } (by decide) (by decide)
  · exact C10_fstat_hostpath_fallback.2.2.2 sampleHost
      { fileNode with data := barePayload } []
      (C10_fstat_hostpath_fallback.2.2.1 sampleHost
        { fileNode with data := barePayload } (by decide) (by decide))

/-- Claim C6: an unset or empty source string falls back to the fixed
default path `"/zip"`; a source whose host stat fails makes `ZipfsInit`
return the host error unchanged (nothing allocated); a source that exists
but is not a directory makes it fail with `ENOTDIR`. -/
theorem C6_init_source_validation :
    defaultSource none = zipDefault ∧
    defaultSource (some []) = zipDefault ∧
    (∀ s, s ≠ [] → defaultSource (some s) = s) ∧
    (∀ hst src alloc e, hst.statH (defaultSource src) = .error e →
        ZipfsInit hst src alloc =
          { result := .error (.hostErr e), live := [], nullDeref := false,
            calls := [.statC (defaultSource src)] }) ∧
    (∀ hst src alloc st, hst.statH (defaultSource src) = .ok st →
        S_ISDIR st.st_mode = false →
        ZipfsInit hst src alloc =
          { result := .error .ENOTDIR, live := [], nullDeref := false,
            calls := [.statC (defaultSource src)] }) := by
  refine ⟨rfl, rfl, ?_, ?_, ?_⟩
  · intro s h
    simp [defaultSource, h]
  · intro hst src alloc e h
    simp [ZipfsInit, h]
  · intro hst src alloc st h hdir
    simp [ZipfsInit, h, hdir]

/-- Witness for C6: mounting the missing path `"/n"` passes errno 2 through;
mounting `"/zip"` on a host where it is a regular file gives `ENOTDIR`. -/
theorem C6_init_source_validation_witness :
    ZipfsInit sampleHost (some ['/', 'n']) allocAll =
      { result := .error (.hostErr 2), live := [], nullDeref := false,
        calls := [.statC ['/', 'n']] } ∧
    ZipfsInit notDirHost (some rootPath) allocAll =
      { result := .error .ENOTDIR, live := [], nullDeref := false,
        calls := [.statC rootPath] } ∧
    defaultSource (some ['/', 'n']) = ['/', 'n'] :=
  ⟨C6_init_source_validation.2.2.2.1 sampleHost (some ['/', 'n']) allocAll 2
     (by decide),
   C6_init_source_validation.2.2.2.2 notDirHost (some rootPath) allocAll
     fileStat (by decide) (by decide),
   C6_init_source_validation.2.2.1 ['/', 'n'] (by decide)⟩

/-- Claim C7 is a code bug: on most allocation-failure paths `ZipfsInit`'s
`cleananddie` does release everything, but when the `strdup` of the root
payload's host path fails (zipfs.c:112-115) the payload was allocated while
`(*mount)->root->data` is wired only later (zipfs.c:118), so
`VfsFreeInfo((*mount)->root)` cannot reach it and the `ZipfsInfo` payload
leaks; and when `VfsCreateInfo` fails (zipfs.c:104) the cleanup executes
`free(zipfsrootinfo->hostpath)` (zipfs.c:142) with `zipfsrootinfo == NULL`,
a NULL dereference.  This theorem evaluates the model at those inputs and at
the well-behaved failure paths for contrast. -/
theorem C7_init_cleanup_leak :
    (ZipfsInit sampleHost (some rootPath) (allocAllBut .hostpathA)).result =
      .error .ENOMEM ∧
    (ZipfsInit sampleHost (some rootPath) (allocAllBut .hostpathA)).live =
      [.payloadA] ∧
    (ZipfsInit sampleHost (some rootPath) (allocAllBut .rootnodeA)).nullDeref =
      true ∧
    (ZipfsInit sampleHost (some rootPath) allocAll).live =
      [.zipdeviceA, .sourceA, .vfsdeviceA, .mountA, .rootnodeA, .payloadA,
       .hostpathA] ∧
    (ZipfsInit sampleHost (some rootPath) allocAll).nullDeref = false ∧
    (ZipfsInit sampleHost (some rootPath) (allocAllBut .sourceA)).live = [] ∧
    (ZipfsInit sampleHost (some rootPath) (allocAllBut .vfsdeviceA)).live = [] ∧
    (ZipfsInit sampleHost (some rootPath) (allocAllBut .mountA)).live = [] ∧
    (ZipfsInit sampleHost (some rootPath) (allocAllBut .payloadA)).live = [] := by
  decide

/-- Counterexample for C8: mounting with source `"/zip/"` (trailing slash)
succeeds, but neither the device record's source string nor the root
payload's host path is the trailing-slash-stripped canonical path — both
keep the slash; only the stored length is stripped. -/
theorem C8_counterexample_unstripped_strings :
    (ZipfsInit slashHost (some slashPath) allocAll).result =
      .ok slashInitResult ∧
    slashInitResult.source ≠ stripSlash slashPath ∧
    slashInitResult.rootinfo.hostpath ≠ some (stripSlash slashPath) ∧
    stripSlash slashPath = rootPath ∧
    slashInitResult.sourcelen = (stripSlash slashPath).length := by
  decide

/-- The length of the spec's canonical (trailing-slash-stripped) path. -/
theorem stripSlash_length (s : Path) :
    (stripSlash s).length =
      if s.length > 0 ∧ s.getLast? = some '/' then s.length - 1
      else s.length := by
  unfold stripSlash
  by_cases h : s.getLast? = some '/'
  · have hne : s ≠ [] := by
      intro he
      rw [he] at h
      simp at h
    rw [if_pos h, if_pos ⟨List.length_pos.mpr hne, h⟩, List.length_dropLast]
  · rw [if_neg h, if_neg (by tauto)]

/-- Inversion of a successful `ZipfsInit`: the host stat of the (defaulted)
source succeeded with a directory mode, and the result is built exactly as
zipfs.c:82-124 builds it. -/
theorem zipfsInit_ok_shape {hst : Host} {src : Option Path}
    {alloc : AllocStep → Bool} {out : InitResult}
    (h : (ZipfsInit hst src alloc).result = .ok out) :
    ∃ st, hst.statH (defaultSource src) = .ok st ∧
      S_ISDIR st.st_mode = true ∧
      out = { source := defaultSource src
              sourcelen :=
                if (defaultSource src).length > 0 ∧
                   (defaultSource src).getLast? = some '/'
                then (defaultSource src).length - 1
                else (defaultSource src).length
              rootinfo := { mode := st.st_mode, filefd := -1,
                            dirstream := none,
                            hostpath := some (defaultSource src) }
              rootmode := st.st_mode
              rootino := ZipfsHash st.st_dev (inoBytes st.st_ino) } := by
  cases hstat : hst.statH (defaultSource src) with
  | error e =>
    simp [ZipfsInit, hstat] at h
  | ok st =>
    by_cases hdir : S_ISDIR st.st_mode = true
    · refine ⟨st, rfl, hdir, ?_⟩
      by_cases h1 : alloc .zipdeviceA = true
      · by_cases h2 : alloc .sourceA = true
        · by_cases h3 : alloc .vfsdeviceA = true
          · by_cases h4 : alloc .mountA = true
            · by_cases h5 : alloc .rootnodeA = true
              · by_cases h6 : alloc .payloadA = true
                · by_cases h7 : alloc .hostpathA = true
                  · simp [ZipfsInit, hstat, hdir, h1, h2, h3, h4, h5, h6,
                          h7] at h
                    exact h.symm
                  · simp [ZipfsInit, initFailOut, hstat, hdir, h1, h2, h3,
                          h4, h5, h6, h7] at h
                · simp [ZipfsInit, initFailOut, hstat, hdir, h1, h2, h3, h4,
                        h5, h6] at h
              · simp [ZipfsInit, initFailOut, hstat, hdir, h1, h2, h3, h4,
                      h5] at h
            · simp [ZipfsInit, initFailOut, hstat, hdir, h1, h2, h3, h4] at h
          · simp [ZipfsInit, initFailOut, hstat, hdir, h1, h2, h3] at h
        · simp [ZipfsInit, initFailOut, hstat, hdir, h1, h2] at h
      · simp [ZipfsInit, hstat, hdir, h1] at h
    · simp [ZipfsInit, hstat, hdir] at h

/-- Claim C8 amended: after a successful `ZipfsInit`, the device record
holds an exact (unstripped) copy of the source path together with the
length of its trailing-slash-stripped form, and the root payload's
`host_path` is that same exact unstripped copy of the source path. -/
theorem C8_amended_source_copy :
    ∀ hst src alloc out,
      (ZipfsInit hst src alloc).result = .ok out →
      out.source = defaultSource src ∧
      out.sourcelen = (stripSlash (defaultSource src)).length ∧
      out.rootinfo.hostpath = some (defaultSource src) := by
  intro hst src alloc out h
  obtain ⟨st, -, -, hout⟩ := zipfsInit_ok_shape h
  subst hout
  exact ⟨rfl, (stripSlash_length _).symm, rfl⟩

/-- Witness for the amended C8: the trailing-slash mount stores `"/zip/"`
itself with stripped length 4. -/
theorem C8_amended_source_copy_witness :
    slashInitResult.source = defaultSource (some slashPath) ∧
    slashInitResult.sourcelen =
      (stripSlash (defaultSource (some slashPath))).length ∧
    slashInitResult.rootinfo.hostpath = some (defaultSource (some slashPath)) :=
  C8_amended_source_copy slashHost (some slashPath) allocAll slashInitResult
    (by decide)

/-- Counterexample for C9: on a payload with no active stream,
`ZipfsReaddir` does not fail with `EBADF` — it returns the NULL dirent with
no error at all — and `ZipfsRewinddir`/`ZipfsSeekdir` are silent no-ops
(void functions that report nothing). -/
theorem C9_counterexample_silent_noops :
    ZipfsReaddir sampleHost noStreamPayload = (.ok none, []) ∧
    (ZipfsReaddir sampleHost noStreamPayload).1 ≠ .error .EBADF ∧
    ZipfsRewinddir noStreamPayload = ((), []) ∧
    ZipfsSeekdir noStreamPayload 5 = ((), []) := by
  refine ⟨by decide, by decide, rfl, rfl⟩

/-- Claim C9 amended: with no active directory stream, none of the four
iteration operations issues any host directory-stream call (all traces are
empty); `ZipfsTelldir` fails with `EBADF`, while `ZipfsReaddir` returns the
no-entry result without raising an error and `ZipfsRewinddir`/`ZipfsSeekdir`
silently do nothing. -/
theorem C9_amended_no_stream_no_host_calls :
    ∀ hst z loc, z.dirstream = none →
      ZipfsReaddir hst z = (.ok none, []) ∧
      ZipfsRewinddir z = ((), []) ∧
      ZipfsSeekdir z loc = ((), []) ∧
      ZipfsTelldir hst z = (.error .EBADF, []) := by
  intro hst z loc h
  refine ⟨?_, ?_, ?_, ?_⟩
  · simp [ZipfsReaddir, h]
  · simp [ZipfsRewinddir, h]
  · simp [ZipfsSeekdir, h]
  · simp [ZipfsTelldir, h]

/-- Witness for the amended C9 on the concrete stream-less payload. -/
theorem C9_amended_no_stream_no_host_calls_witness :
    ZipfsReaddir sampleHost noStreamPayload = (.ok none, []) ∧
    ZipfsRewinddir noStreamPayload = ((), []) ∧
    ZipfsSeekdir noStreamPayload 5 = ((), []) ∧
    ZipfsTelldir sampleHost noStreamPayload = (.error .EBADF, []) :=
  C9_amended_no_stream_no_host_calls sampleHost noStreamPayload 5 rfl

/-- `RegOnly` holds of the sample host that only opens the regular file. -/
theorem regHost_regOnly : RegOnly regHost := by
  intro p fd st hopen hfstat
  simp only [regHost] at hopen hfstat
  by_cases hp : p = filePath
  · rw [if_pos hp] at hopen
    injection hopen with h1
    subst h1
    rw [if_pos rfl] at hfstat
    injection hfstat with h2
    subst h2
    decide
  · rw [if_neg hp] at hopen
    exact absurd hopen (by simp)

/-- A payload the adapter created satisfies the invariant, provided the
host only hands out descriptors to regular files. -/
theorem payloadInv_created {hst : Host} {z : ZipfsInfo}
    (hreg : RegOnly hst) (hc : Created hst z) : PayloadInv z := by
  rcases hc with h | ⟨parent, name, out, tr, hfd, hz⟩ |
    ⟨parent, name, flags, out, tr, hop, hz⟩
  · subst h
    exact ⟨Or.inl rfl, fun hd => absurd rfl hd, fun hf => absurd rfl hf⟩
  · obtain ⟨hp, st, -, -, hout, -⟩ := zipfsFinddir_ok_shape hfd
    subst hz
    rw [hout]
    exact ⟨Or.inl rfl, fun hd => absurd rfl hd, fun hf => absurd rfl hf⟩
  · obtain ⟨hp, fd, st, -, hopen, hfstat, hout, -⟩ := zipfsOpen_ok_shape hop
    subst hz
    rw [hout]
    exact ⟨Or.inr rfl, fun hd => absurd rfl hd,
           fun _ => hreg hp fd st hopen hfstat⟩

/-- Each adapter operation preserves the payload invariant. -/
theorem payloadInv_applyOp {hst : Host} {z : ZipfsInfo}
    (hinv : PayloadInv z) (op : NodeOp) : PayloadInv (applyOp hst z op) := by
  obtain ⟨h1, h2, h3⟩ := hinv
  cases op
  case closeO =>
    show PayloadInv (ZipfsClose hst z).2.1
    by_cases hfd : z.filefd = -1
    · have hz : (ZipfsClose hst z).2.1 = z := by simp [ZipfsClose, hfd]
      rw [hz]
      exact ⟨h1, h2, h3⟩
    · rw [zipfsClose_clears hfd]
      exact ⟨Or.inl rfl, h2, fun hf => absurd rfl hf⟩
  case opendirO =>
    show PayloadInv (ZipfsOpendir hst z).2.1
    by_cases hdir : S_ISDIR z.mode = true
    · cases hhp : z.hostpath with
      | none =>
        have hz : (ZipfsOpendir hst z).2.1 = z := by
          simp [ZipfsOpendir, hdir, hhp]
        rw [hz]
        exact ⟨h1, h2, h3⟩
      | some hp =>
        cases hod : hst.opendirH hp with
        | error e =>
          have hz : (ZipfsOpendir hst z).2.1 = z := by
            simp [ZipfsOpendir, hdir, hhp, hod]
          rw [hz]
          exact ⟨h1, h2, h3⟩
        | ok s =>
          have hz : (ZipfsOpendir hst z).2.1 = { z with dirstream := some s } := by
            simp [ZipfsOpendir, hdir, hhp, hod]
          rw [hz]
          have hfd : z.filefd = -1 := by
            by_contra hne
            have hreg := h3 hne
            rw [isdir_not_isreg hdir] at hreg
            exact absurd hreg (by simp)
          exact ⟨Or.inl hfd, fun _ => hdir, fun hf => absurd hfd hf⟩
    · have hz : (ZipfsOpendir hst z).2.1 = z := by
        simp [ZipfsOpendir, hdir]
      rw [hz]
      exact ⟨h1, h2, h3⟩
  case closedirO =>
    show PayloadInv (ZipfsClosedir hst z).2.1
    cases hds : z.dirstream with
    | none =>
      have hz : (ZipfsClosedir hst z).2.1 = z := by simp [ZipfsClosedir, hds]
      rw [hz]
      exact ⟨h1, h2, h3⟩
    | some s =>
      cases hcd : hst.closedirH s with
      | error e =>
        have hz : (ZipfsClosedir hst z).2.1 = z := by
          simp [ZipfsClosedir, hds, hcd]
        rw [hz]
        exact ⟨h1, h2, h3⟩
      | ok u =>
        have hz : (ZipfsClosedir hst z).2.1 = { z with dirstream := none } := by
          simp [ZipfsClosedir, hds, hcd]
        rw [hz]
        exact ⟨Or.inr rfl, fun hd => absurd rfl hd, h3⟩
  all_goals exact ⟨h1, h2, h3⟩

/-- The invariant is preserved along any operation sequence. -/
theorem payloadInv_applyOps {hst : Host} (ops : List NodeOp) :
    ∀ z, PayloadInv z → PayloadInv (applyOps hst ops z) := by
  induction ops with
  | nil => exact fun z h => h
  | cons op rest ih => exact fun z h => ih _ (payloadInv_applyOp h op)

/-- Counterexample for C5: `ZipfsOpen` never checks that the opened entry is
a regular file, so opening the subdirectory name yields a payload holding an
open descriptor with a directory mode (mode-consistency violated), and a
following `ZipfsOpendir` on that payload makes the descriptor and a
directory stream active simultaneously (at-most-one violated). -/
theorem C5_counterexample_both_active :
    ZipfsOpen sampleHost rootNode ['s'] 0 =
      (.ok openedSubNode, [.openC subPath, .fstatC 4]) ∧
    S_ISREG openedSubNode.data.mode = false ∧
    openedSubNode.data.filefd ≠ -1 ∧
    (applyOps sampleHost [.opendirO] openedSubNode.data).filefd = 4 ∧
    (applyOps sampleHost [.opendirO] openedSubNode.data).dirstream = some 10 ∧
    ¬ PayloadInv (applyOps sampleHost [.opendirO] openedSubNode.data) := by
  have hboth :
      ¬ ((applyOps sampleHost [.opendirO] openedSubNode.data).filefd = -1 ∨
         (applyOps sampleHost [.opendirO] openedSubNode.data).dirstream =
           none) := by decide
  exact ⟨by decide, by decide, by decide, by decide, by decide,
         fun hinv => hboth hinv.1⟩

/-- Claim C5 amended: directly after creation and along every operation
sequence, at most one of {descriptor, stream} is active and it is
consistent with the node's mode — provided every successful host open
designates a regular file (`RegOnly`), i.e. provided `ZipfsOpen` is only
applied to names resolving to regular files.  Without that restriction the
invariant fails (see the counterexample). -/
theorem C5_amended_payload_invariant :
    ∀ hst, RegOnly hst → ∀ z, Created hst z → ∀ ops,
      PayloadInv (applyOps hst ops z) :=
  fun _hst hreg _z hc ops => payloadInv_applyOps ops _ (payloadInv_created hreg hc)

/-- Witness for the amended C5: the opened regular file, after a (refused)
opendir, a read and a close, still satisfies the invariant. -/
theorem C5_amended_payload_invariant_witness :
    PayloadInv (applyOps regHost [.opendirO, .readO 8, .closeO] openPayload) :=
  C5_amended_payload_invariant regHost regHost_regOnly openPayload
    (Or.inr (Or.inr ⟨rootNode, ['a'], 0, openedFileNode,
      [.openC filePath, .fstatC 3], by decide, rfl⟩))
    [.opendirO, .readO 8, .closeO]

end Zipfs
